import Mathlib

/-!
Shallow embedding of the vertex-selection / skinning / rigging core of the
animation-poc repository.  JS numbers are modelled as rationals (ℚ), JS arrays
as lists, JS `Set` objects as duplicate-free lists in insertion order, and
nullable values as `Option`.  `Math.random()`-driven draws are modelled by an
explicit stream `rand : ℕ → ℕ` whose value at attempt `t` is reduced modulo the
array length (mirroring `Math.floor(Math.random() * total)`, which always lands
in `[0, total)`).
-/

namespace AnimPoc

/-- A 3D point, as used for vertices, joints and bone positions
(`THREE.Vector3` / plain `{x, y, z}` objects). -/
structure Vec3 where
  x : ℚ
  y : ℚ
  z : ℚ
deriving DecidableEq

/-- Componentwise difference, used to state root-relative offsets. -/
def Vec3.sub (a b : Vec3) : Vec3 :=
  { x := a.x - b.x, y := a.y - b.y, z := a.z - b.z }

/-- Squared Euclidean distance (`THREE.Vector3.distanceToSquared`). -/
def Vec3.distanceToSquared (a b : Vec3) : ℚ :=
  (a.x - b.x) * (a.x - b.x) + (a.y - b.y) * (a.y - b.y) + (a.z - b.z) * (a.z - b.z)

/-- A bone of the synthesized skeleton (`THREE.Bone`).  The code builds a flat
two-level tree: the root has no parent, every other bone is a direct child of
the root, so the parent chain is captured by the optional position of the
parent bone. -/
structure Bone where
  name : String
  position : Vec3
  parentPosition : Option Vec3
deriving DecidableEq

/-- World position of a bone (`THREE.Object3D.getWorldPosition`): the root's
world position is its own position; a child's is the parent's position plus
the child's local offset. -/
def Bone.getWorldPosition (b : Bone) : Vec3 :=
  match b.parentPosition with
  | none => b.position
  | some p => { x := p.x + b.position.x, y := p.y + b.position.y, z := p.z + b.position.z }

/-- The `for (let i = 1; ...)` loop of `createBones` (riggingUtils): one child
bone per remaining joint, positioned relative to the first bone and parented
to it.  `i` is the running bone index used for the name. -/
def createChildBones (firstBonePosition : Vec3) : List Vec3 → ℕ → List Bone
  | [], _ => []
  | pos :: rest, i =>
      { name := "Bone_" ++ toString i,
        position := { x := pos.x - firstBonePosition.x,
                      y := pos.y - firstBonePosition.y,
                      z := pos.z - firstBonePosition.z },
        parentPosition := some firstBonePosition } :: createChildBones firstBonePosition rest (i + 1)

/-- `createBones` (riggingUtils): the first joint becomes the root bone placed
at its given position, every subsequent bone is a child of the root with a
root-relative offset.  An empty joint list yields an empty bone list. -/
def createBones (jointPositions : List Vec3) : List Bone :=
  match jointPositions with
  | [] => []
  | j0 :: rest =>
      { name := "Bone_0", position := j0, parentPosition := none }
        :: createChildBones j0 rest 1

/-- Geometry state (`THREE.BufferGeometry`), restricted to the attributes this
core reads or writes.  `skinIndex` holds the numbers pushed by the skinning
loop (conversion to a 16-bit buffer happens inside the external
`THREE.Uint16BufferAttribute` constructor). -/
structure Geometry where
  position : Option (List Vec3)
  skinIndex : Option (List ℕ)
  skinWeight : Option (List ℚ)
  userDataSkeleton : Option (List Bone)
deriving DecidableEq

/-- The inner `for (let j = 0; ...)` loop of `calculateNearestBoneWeights`:
scan the bone world positions keeping the running nearest index and minimal
squared distance.  The JS initial state `nearestBoneIndex = -1`,
`minDistanceSq = Infinity` is `none`; every finite distance beats `Infinity`,
and later bones replace the incumbent only on a strictly smaller distance. -/
def nearestScan (v : Vec3) : List Vec3 → ℕ → Option (ℕ × ℚ) → Option (ℕ × ℚ)
  | [], _, best => best
  | b :: rest, j, best =>
      let distanceSq := v.distanceToSquared b
      match best with
      | none => nearestScan v rest (j + 1) (some (j, distanceSq))
      | some (bi, minD) =>
          if distanceSq < minD then nearestScan v rest (j + 1) (some (j, distanceSq))
          else nearestScan v rest (j + 1) (some (bi, minD))

/-- The four `skinIndices` slots pushed for one vertex: nearest bone index
followed by zeros, or all zeros in the defensive `nearestBoneIndex === -1`
branch. -/
def skinEntryIndices (v : Vec3) (boneWorldPositions : List Vec3) : List ℕ :=
  match nearestScan v boneWorldPositions 0 none with
  | some (bi, _) => [bi, 0, 0, 0]
  | none => [0, 0, 0, 0]

/-- The four `skinWeights` slots pushed for one vertex: full weight to the
nearest bone, or no influence in the defensive branch. -/
def skinEntryWeights (v : Vec3) (boneWorldPositions : List Vec3) : List ℚ :=
  match nearestScan v boneWorldPositions 0 none with
  | some _ => [1, 0, 0, 0]
  | none => [0, 0, 0, 0]

/-- `calculateNearestBoneWeights` (riggingUtils): on a geometry with a position
attribute and a non-empty bone list, attach `skinIndex` / `skinWeight`
attributes holding four slots per vertex; otherwise log and leave the geometry
untouched. -/
def calculateNearestBoneWeights (geometry : Geometry) (bones : List Bone) : Geometry :=
  match geometry.position with
  | none => geometry
  | some positions =>
      if bones.isEmpty then geometry
      else
        let boneWorldPositions := bones.map Bone.getWorldPosition
        { geometry with
          skinIndex := some (positions.flatMap (fun v => skinEntryIndices v boneWorldPositions)),
          skinWeight := some (positions.flatMap (fun v => skinEntryWeights v boneWorldPositions)) }

/-- `createAndBindSkeleton` (riggingUtils): `none` stands for a missing
(`null`/`undefined`) joint array.  On empty or missing joints the function
returns `null` without touching the geometry; otherwise it builds the bones,
attaches the skinning attributes and stores the skeleton in
`geometry.userData`. -/
def createAndBindSkeleton (geometry : Geometry) (jointPositions : Option (List Vec3)) :
    Option (List Bone) × Geometry :=
  match jointPositions with
  | none => (none, geometry)
  | some joints =>
      if joints.isEmpty then (none, geometry)
      else
        let bones := createBones joints
        if bones.isEmpty then (none, geometry)
        else
          let geometry' := calculateNearestBoneWeights geometry bones
          (some bones, { geometry' with userDataSkeleton := some bones })

/-- The bounded `while` loop of `samplePrecomputedPositions` (samplingUtils).
`records` holds, for each element of the input array, its `position` field
(`none` when missing).  `drawn` is the `sampledInputIndices` set (insertion
order), `acc` the `sampledPositions` array.  `fuel` is the number of attempts
still allowed (`maxAttempts - attempts`), so fuel `0` is the
`attempts < maxAttempts` exit. -/
def sampleLoop (records : List (Option Vec3)) (rand : ℕ → ℕ) (targetSize : ℕ) :
    ℕ → ℕ → List ℕ → List Vec3 → List ℕ × List Vec3
  | 0, _, drawn, acc => (drawn, acc)
  | fuel + 1, attempt, drawn, acc =>
      if drawn.length < targetSize then
        let randomIndex := rand attempt % records.length
        if randomIndex ∈ drawn then
          sampleLoop records rand targetSize fuel (attempt + 1) drawn acc
        else
          match records.getD randomIndex none with
          | some p =>
              sampleLoop records rand targetSize fuel (attempt + 1)
                (drawn ++ [randomIndex]) (acc ++ [p])
          | none =>
              sampleLoop records rand targetSize fuel (attempt + 1)
                (drawn ++ [randomIndex]) acc
      else (drawn, acc)

/-- `samplePrecomputedPositions` (samplingUtils), instrumented to also return
the list of drawn input-array indices (first component); the function's actual
return value is the second component.  Ratio clamping, the `maxCount`
fallback, the target-size computation and the `maxAttempts = targetSize * 5`
budget follow the source. -/
def samplePrecomputedPositionsFull (records : List (Option Vec3)) (ratio : ℚ)
    (maxCount : ℤ) (rand : ℕ → ℕ) : List ℕ × List Vec3 :=
  if records.isEmpty then ([], [])
  else
    let ratio := if ratio < 0 ∨ 1 < ratio then max 0 (min 1 ratio) else ratio
    let maxCount := if maxCount ≤ 0 then 1000 else maxCount
    let totalAvailable : ℤ := records.length
    let targetSize : ℤ := max 0 (min (min ⌈(records.length : ℚ) * ratio⌉ totalAvailable) maxCount)
    if targetSize = 0 then ([], [])
    else sampleLoop records rand targetSize.toNat (targetSize.toNat * 5) 0 [] []

/-- The array of `{x, y, z}` position objects returned by
`samplePrecomputedPositions`. -/
def samplePrecomputedPositions (records : List (Option Vec3)) (ratio : ℚ)
    (maxCount : ℤ) (rand : ℕ → ℕ) : List Vec3 :=
  (samplePrecomputedPositionsFull records ratio maxCount rand).2

/-- The `sampleSize` computation of `sampleVertexPositions` (samplingUtils
line 36): at least one sample, at most all selected, aiming at
`ceil(totalSelected * ratio)`; an out-of-range ratio is clamped first. -/
def sampleVertexSampleSize (totalSelected : ℕ) (ratio : ℚ) : ℤ :=
  let ratio := if ratio < 0 ∨ 1 < ratio then max 0 (min 1 ratio) else ratio
  max 1 (min (totalSelected : ℤ) ⌈(totalSelected : ℚ) * ratio⌉)

/-- The `while (sampledIndices.size < sampleSize)` loop of
`sampleVertexPositions` (samplingUtils).  Vertex indices may be any integers
(`Set<number>`), hence `ℤ`; `positionCount` is `positionAttribute.count`.
An out-of-range index is skipped; adding an index already in the set is a
no-op; the `if (sampledIndices.size >= totalSelected) break` guard is the
loop's only exit besides the `while` condition.  The loop has no attempts
budget in the source, so it is modelled with explicit fuel: `none` means the
loop is still running after `fuel` iterations. -/
def sampleVertexLoop (positionCount : ℕ) (indicesArray : List ℤ) (sampleSize : ℕ)
    (rand : ℕ → ℕ) : ℕ → ℕ → List ℤ → Option (List ℤ)
  | 0, _, _ => none
  | fuel + 1, attempt, sampled =>
      if sampled.length < sampleSize then
        let randomIndex := rand attempt % indicesArray.length
        let vertexIndex := indicesArray.getD randomIndex 0
        let sampled' :=
          if 0 ≤ vertexIndex ∧ vertexIndex < (positionCount : ℤ) ∧ vertexIndex ∉ sampled
          then sampled ++ [vertexIndex] else sampled
        if indicesArray.length ≤ sampled'.length then some sampled'
        else sampleVertexLoop positionCount indicesArray sampleSize rand fuel (attempt + 1) sampled'
      else some sampled

/-- JS `String.prototype.trim`: strip leading and trailing whitespace.
Defined over the character list so that it evaluates by kernel reduction. -/
def jsTrim (s : String) : String :=
  ⟨((s.data.dropWhile Char.isWhitespace).reverse.dropWhile Char.isWhitespace).reverse⟩

/-- The parsed outcome of the `fetch('/api/generate-joints')` call inside
`generate`: a success carries the parsed joint array, a failure carries the
HTTP status and the `error` field of the parsed error body when one was
readable (`none` covers an unparseable or missing field). -/
inductive ApiResponse where
  | success (joints : List Vec3)
  | failure (status : ℕ) (errorField : Option String)
deriving DecidableEq

/-- The state held by `useSkeletonGenerator`: one field per `useState` hook.
`error = none` is the non-errored state; `preparedGrouped` holds the
`position` fields of the prepared `groupedVertexData` records and
`preparedGeometry` the geometry clone. -/
structure GenState where
  isPreparing : Bool
  showPrompt : Bool
  prompt : String
  isLoading : Bool
  error : Option String
  generatedSkeleton : Option (List Bone)
  skinnedGeometry : Option Geometry
  preparedGrouped : Option (List (Option Vec3))
  preparedGeometry : Option Geometry
deriving DecidableEq

/-- `generate` (useSkeletonGenerator): clears previous error and results,
validates the prepared data and the prompt, samples, and either errors out on
a non-ok response or synthesizes and stores the skeleton.  `resp` stands for
the awaited `fetch` outcome; `rand` drives the sampler. -/
def generate (s : GenState) (resp : ApiResponse) (rand : ℕ → ℕ) : GenState :=
  let s1 := { s with error := none, generatedSkeleton := none,
                     skinnedGeometry := none, isLoading := true }
  match s1.preparedGrouped with
  | none =>
      { s1 with error := some "Grouped vertex data not found or empty. Please prepare data again.",
                isLoading := false }
  | some recs =>
      if recs.isEmpty then
        { s1 with error := some "Grouped vertex data not found or empty. Please prepare data again.",
                  isLoading := false }
      else
        match s1.preparedGeometry with
        | none =>
            { s1 with error := some "Model geometry not found. Please prepare data again.",
                      isLoading := false }
        | some geometryClone =>
            if jsTrim s1.prompt = "" then
              { s1 with error := some "Please enter an animation prompt.", isLoading := false }
            else
              let sampledPositions := samplePrecomputedPositions recs (1 / 2) 100 rand
              if sampledPositions.isEmpty then
                { s1 with error := some "Failed to sample any vertex positions.",
                          isLoading := false }
              else
                match resp with
                | .failure status errorField =>
                    { s1 with
                      error := some (errorField.getD
                        ("API request failed (" ++ toString status ++ ")")),
                      isLoading := false }
                | .success joints =>
                    if joints.isEmpty then
                      { s1 with error := some "Missing geometry or joint data for skeleton creation.",
                                isLoading := false }
                    else
                      match createAndBindSkeleton geometryClone (some joints) with
                      | (some skeleton, geometry') =>
                          { s1 with generatedSkeleton := some skeleton,
                                    skinnedGeometry := some geometry',
                                    showPrompt := false, isLoading := false }
                      | (none, _) =>
                          { s1 with error := some "Failed to create skeleton or bind attributes.",
                                    isLoading := false }

/-- `cancel` (useSkeletonGenerator): hide the prompt, clear the error and the
prompt text; everything else is untouched. -/
def cancel (s : GenState) : GenState :=
  { s with showPrompt := false, error := none, prompt := "" }

/-- A 2D screen-space point (lasso path points and projected vertices). -/
structure Pt2 where
  x : ℚ
  y : ℚ
deriving DecidableEq

/-- The per-edge test of the ray-casting loop in `_isPointInLasso`
(ModelEditorLasso): the edge from `pj` to `pi` crosses the horizontal ray at
`p` iff the endpoints straddle `p.y` and the crossing lies to the right of
`p.x`.  JS `&&` short-circuits, so the division is only reached when
`pi.y ≠ pj.y`; ℚ division is total, and the straddle factor is false exactly
when the two y's compare equally against `p.y`. -/
def edgeIntersect (p pi pj : Pt2) : Bool :=
  (decide (pi.y > p.y) != decide (pj.y > p.y)) &&
    decide (p.x < (pj.x - pi.x) * (p.y - pi.y) / (pj.y - pi.y) + pi.x)

/-- `_isPointInLasso` (ModelEditorLasso): ray-casting parity over the closed
polygon; index `j` is the predecessor of `i`, cyclically (`n - 1` for `0`). -/
def isPointInLasso (p : Pt2) (points : List Pt2) : Bool :=
  (List.range points.length).foldl
    (fun inside i =>
      let j := if i = 0 then points.length - 1 else i - 1
      if edgeIntersect p (points.getD i ⟨0, 0⟩) (points.getD j ⟨0, 0⟩) then !inside else inside)
    false

/-- State of one `ModelEditorLasso` instance: which of the three event
listeners are currently attached, the `_isSelecting` flag, the accumulated
`_lassoPoints` path, the `selectedVertices` set (insertion order), and the
log of `onSelectionChange` notifications emitted so far. -/
structure LassoState where
  listenerDown : Bool
  listenerMove : Bool
  listenerUp : Bool
  isSelecting : Bool
  lassoPoints : List Pt2
  selectedVertices : List ℕ
  notifications : List (List ℕ)
deriving DecidableEq

/-- Environment read during vertex classification: the per-vertex normalized
device coordinates produced by the external
`vertex.applyMatrix4(matrixWorld).project(camera)` chain (`none` when the
mesh or its position attribute is missing), and the canvas client size. -/
structure LassoEnv where
  ndc : Option (List Vec3)
  clientWidth : ℚ
  clientHeight : ℚ

/-- `_addLassoPoint`: append the pointer position (already relative to the
canvas rectangle) to the path. -/
def addLassoPoint (pos : Pt2) (s : LassoState) : LassoState :=
  { s with lassoPoints := s.lassoPoints ++ [pos] }

/-- `_onMouseDown`: ignore non-primary buttons; otherwise start a gesture:
reset the path, clear (and notify) a non-empty previous selection, attach the
move/up listeners and record the first path point. -/
def onMouseDown (button : ℕ) (pos : Pt2) (s : LassoState) : LassoState :=
  if button ≠ 0 then s
  else
    let s := { s with isSelecting := true, lassoPoints := [] }
    let s :=
      if 0 < s.selectedVertices.length then
        { s with selectedVertices := [], notifications := s.notifications ++ [[]] }
      else s
    let s := { s with listenerMove := true, listenerUp := true }
    addLassoPoint pos s

/-- `_onMouseMove`: record a path point while a gesture is active. -/
def onMouseMove (pos : Pt2) (s : LassoState) : LassoState :=
  if !s.isSelecting then s else addLassoPoint pos s

/-- One iteration of the vertex loop of `_selectVertices`: map vertex `i`'s
NDC to rounded screen coordinates (y inverted) and add it to the selection
when it lies in the visible depth range and inside the lasso polygon. -/
def selectVertexStep (vs : List Vec3) (w h : ℚ) (path : List Pt2) (sel : List ℕ) (i : ℕ) :
    List ℕ :=
  let v := vs.getD i ⟨0, 0, 0⟩
  let sx : ℚ := (round ((v.x + 1) / 2 * w) : ℤ)
  let sy : ℚ := (round ((1 - v.y) / 2 * h) : ℤ)
  if (decide (v.z > -1) && decide (v.z < 1) && isPointInLasso ⟨sx, sy⟩ path) = true
  then (if i ∈ sel then sel else sel ++ [i]) else sel

/-- The vertex loop of `_selectVertices` over the whole position buffer. -/
def selectVerticesLoop (vs : List Vec3) (w h : ℚ) (path : List Pt2) (sel : List ℕ) : List ℕ :=
  (List.range vs.length).foldl (selectVertexStep vs w h path) sel

/-- `_selectVertices`: no-op when the mesh geometry is unavailable; otherwise
run the vertex loop over the current path, adding to `selectedVertices`. -/
def selectVertices (env : LassoEnv) (s : LassoState) : LassoState :=
  match env.ndc with
  | none => s
  | some vs =>
      { s with selectedVertices :=
          selectVerticesLoop vs env.clientWidth env.clientHeight s.lassoPoints s.selectedVertices }

/-- `_onMouseUp`: finish the gesture: record the final point, detach the
dynamic listeners, classify when the path has more than two points (otherwise
reset the path and clear any selection), and notify the observer once with
the final selection. -/
def onMouseUp (env : LassoEnv) (pos : Pt2) (s : LassoState) : LassoState :=
  if !s.isSelecting then s
  else
    let s := addLassoPoint pos s
    let s := { s with isSelecting := false, listenerMove := false, listenerUp := false }
    let s :=
      if 2 < s.lassoPoints.length then selectVertices env s
      else
        let s := { s with lassoPoints := [] }
        if 0 < s.selectedVertices.length then { s with selectedVertices := [] } else s
    { s with notifications := s.notifications ++ [s.selectedVertices] }

/-- `dispose` (ModelEditorLasso): remove the mousedown listener and, in case a
gesture was interrupted, the mousemove/mouseup listeners.  Emits nothing. -/
def dispose (s : LassoState) : LassoState :=
  { s with listenerDown := false, listenerMove := false, listenerUp := false }

/-- The cleanup that `LassoController` runs on tool deactivation: dispose the
engine instance, then push an empty selection to the selection observer
(`setSelectedIndices(new Set())` / `onSelectionChange(new Set())`). -/
def lassoControllerCleanup (s : LassoState) : LassoState :=
  let s := dispose s
  { s with notifications := s.notifications ++ [[]] }

/-- The classification of a finished path: what `_selectVertices` computes
starting from an empty selection set. -/
def lassoClassification (env : LassoEnv) (path : List Pt2) : List ℕ :=
  match env.ndc with
  | none => []
  | some vs => selectVerticesLoop vs env.clientWidth env.clientHeight path []

/-- One complete primary-button gesture: mousedown at `q0`, a mousemove per
point of `qs`, mouseup at `qe`. -/
def runGesture (env : LassoEnv) (q0 : Pt2) (qs : List Pt2) (qe : Pt2) (s : LassoState) :
    LassoState :=
  onMouseUp env qe (qs.foldl (fun st q => onMouseMove q st) (onMouseDown 0 q0 s))

/-- Invariant of the `nearestScan` loop after the prefix `pre` of the bone
position list has been processed: the JS state `(-1, Infinity)` (`none`)
occurs only on the empty prefix; otherwise the state holds the first index
realizing the prefix's minimal squared distance to `v`, together with that
distance. -/
def scanInv (v : Vec3) (pre : List Vec3) : Option (ℕ × ℚ) → Prop
  | none => pre = []
  | some (bi, minD) =>
      bi < pre.length ∧ minD = v.distanceToSquared (pre.getD bi ⟨0, 0, 0⟩) ∧
      (∀ k, k < pre.length → minD ≤ v.distanceToSquared (pre.getD k ⟨0, 0, 0⟩)) ∧
      (∀ k, k < bi → minD < v.distanceToSquared (pre.getD k ⟨0, 0, 0⟩))

/-! ### Lemmas and theorems -/

theorem getD_append_length {α : Type} (l : List α) (b : α) (l' : List α) (d : α) :
    (l ++ b :: l').getD l.length d = b := by
  induction l with
  | nil => rfl
  | cons a t ih => simpa using ih

theorem flatMap_length_four {α β : Type} (f : α → List β) (h : ∀ a, (f a).length = 4) :
    ∀ l : List α, (l.flatMap f).length = 4 * l.length := by
  intro l
  induction l with
  | nil => rfl
  | cons a t ih =>
      simp only [List.flatMap_cons, List.length_append, h, ih, List.length_cons]
      ring

theorem flatMap_chunk {α β : Type} (f : α → List β) (h : ∀ a, (f a).length = 4) (z : α) :
    ∀ (l : List α) (i : ℕ), i < l.length →
      ((l.flatMap f).drop (4 * i)).take 4 = f (l.getD i z) := by
  intro l
  induction l with
  | nil => intro i hi; simp at hi
  | cons a t ih =>
      intro i hi
      cases i with
      | zero =>
          simp only [List.flatMap_cons, Nat.mul_zero, List.drop_zero, List.getD_cons_zero]
          rw [show (4 : ℕ) = (f a).length from (h a).symm, List.take_left]
      | succ k =>
          have hmul : (4 : ℕ) * (k + 1) = (f a).length + 4 * k := by rw [h a]; ring
          simp only [List.flatMap_cons, List.getD_cons_succ]
          rw [hmul, List.drop_append]
          exact ih k (by simpa using hi)

theorem nearestScan_inv (v : Vec3) :
    ∀ (l pre : List Vec3) (st : Option (ℕ × ℚ)), scanInv v pre st →
      scanInv v (pre ++ l) (nearestScan v l pre.length st) := by
  intro l
  induction l with
  | nil => intro pre st h; simpa [nearestScan] using h
  | cons b rest ih =>
      intro pre st h
      match st with
      | none =>
          have hpre : pre = [] := h
          subst hpre
          have h2 : scanInv v [b] (some (0, v.distanceToSquared b)) := by
            refine ⟨by simp, rfl, ?_, ?_⟩
            · intro k hk
              have hk1 : k < 1 := by simpa using hk
              have hk0 : k = 0 := by omega
              subst hk0
              exact le_rfl
            · intro k hk
              exact absurd hk (Nat.not_lt_zero k)
          have h3 := ih [b] (some (0, v.distanceToSquared b)) h2
          simpa [nearestScan] using h3
      | some (bi, minD) =>
          obtain ⟨hb, hm, hmin, hstrict⟩ := h
          by_cases hlt : v.distanceToSquared b < minD
          · have h2 : scanInv v (pre ++ [b]) (some (pre.length, v.distanceToSquared b)) := by
              refine ⟨by simp, by rw [getD_append_length], ?_, ?_⟩
              · intro k hk
                have hk2 : k < pre.length + 1 := by simpa using hk
                rcases Nat.lt_succ_iff_lt_or_eq.mp hk2 with hk' | hk'
                · rw [List.getD_append _ _ _ _ hk']
                  exact le_of_lt (lt_of_lt_of_le hlt (hmin k hk'))
                · subst hk'
                  rw [getD_append_length]
              · intro k hk
                rw [List.getD_append _ _ _ _ hk]
                exact lt_of_lt_of_le hlt (hmin k hk)
            have h3 := ih (pre ++ [b]) _ h2
            have heq : nearestScan v (b :: rest) pre.length (some (bi, minD))
                = nearestScan v rest (pre ++ [b]).length
                    (some (pre.length, v.distanceToSquared b)) := by
              simp [nearestScan, hlt, List.length_append]
            rw [show pre ++ b :: rest = (pre ++ [b]) ++ rest by simp, heq]
            exact h3
          · have h2 : scanInv v (pre ++ [b]) (some (bi, minD)) := by
              refine ⟨by simp; omega, by rw [List.getD_append _ _ _ _ hb]; exact hm, ?_, ?_⟩
              · intro k hk
                have hk2 : k < pre.length + 1 := by simpa using hk
                rcases Nat.lt_succ_iff_lt_or_eq.mp hk2 with hk' | hk'
                · rw [List.getD_append _ _ _ _ hk']
                  exact hmin k hk'
                · subst hk'
                  rw [getD_append_length]
                  exact not_lt.mp hlt
              · intro k hk
                rw [List.getD_append _ _ _ _ (lt_trans hk hb)]
                exact hstrict k hk
            have h3 := ih (pre ++ [b]) _ h2
            have heq : nearestScan v (b :: rest) pre.length (some (bi, minD))
                = nearestScan v rest (pre ++ [b]).length (some (bi, minD)) := by
              simp [nearestScan, hlt, List.length_append]
            rw [show pre ++ b :: rest = (pre ++ [b]) ++ rest by simp, heq]
            exact h3

theorem nearestScan_spec (v : Vec3) (bps : List Vec3) (h : bps ≠ []) :
    ∃ bi minD, nearestScan v bps 0 none = some (bi, minD) ∧ bi < bps.length ∧
      minD = v.distanceToSquared (bps.getD bi ⟨0, 0, 0⟩) ∧
      (∀ k, k < bps.length → minD ≤ v.distanceToSquared (bps.getD k ⟨0, 0, 0⟩)) ∧
      (∀ k, k < bi → minD < v.distanceToSquared (bps.getD k ⟨0, 0, 0⟩)) := by
  have h0 := nearestScan_inv v bps [] none rfl
  simp only [List.nil_append, List.length_nil] at h0
  match hr : nearestScan v bps 0 none with
  | none =>
      rw [hr] at h0
      exact absurd h0 h
  | some (bi, minD) =>
      rw [hr] at h0
      exact ⟨bi, minD, rfl, h0.1, h0.2.1, h0.2.2.1, h0.2.2.2⟩

theorem skinEntryIndices_length (v : Vec3) (bps : List Vec3) :
    (skinEntryIndices v bps).length = 4 := by
  unfold skinEntryIndices
  match nearestScan v bps 0 none with
  | none => rfl
  | some (bi, minD) => rfl

theorem skinEntryWeights_length (v : Vec3) (bps : List Vec3) :
    (skinEntryWeights v bps).length = 4 := by
  unfold skinEntryWeights
  match nearestScan v bps 0 none with
  | none => rfl
  | some (bi, minD) => rfl

/-- C1: with a position buffer of `n` vertices and a non-empty bone list, the
skin-weight computation attaches a skin-index and a skin-weight buffer of
exactly `n` four-slot entries each; entry `i` has weight vector `[1,0,0,0]`
and index vector `[b,0,0,0]` where `b` is an in-range bone index of minimal
squared distance to vertex `i`, and every strictly smaller bone index sits
strictly farther away (lowest-index tie-break). -/
theorem claim1_nearest_bone_weights (g : Geometry) (ps : List Vec3) (bones : List Bone)
    (hpos : g.position = some ps) (hb : bones ≠ []) :
    ∃ I W, (calculateNearestBoneWeights g bones).skinIndex = some I ∧
      (calculateNearestBoneWeights g bones).skinWeight = some W ∧
      I.length = 4 * ps.length ∧ W.length = 4 * ps.length ∧
      ∀ i, i < ps.length →
        (W.drop (4 * i)).take 4 = [1, 0, 0, 0] ∧
        ∃ b, (I.drop (4 * i)).take 4 = [b, 0, 0, 0] ∧ b < bones.length ∧
          (∀ j, j < bones.length →
            (ps.getD i ⟨0, 0, 0⟩).distanceToSquared
                ((bones.map Bone.getWorldPosition).getD b ⟨0, 0, 0⟩)
              ≤ (ps.getD i ⟨0, 0, 0⟩).distanceToSquared
                  ((bones.map Bone.getWorldPosition).getD j ⟨0, 0, 0⟩)) ∧
          (∀ j, j < b →
            (ps.getD i ⟨0, 0, 0⟩).distanceToSquared
                ((bones.map Bone.getWorldPosition).getD b ⟨0, 0, 0⟩)
              < (ps.getD i ⟨0, 0, 0⟩).distanceToSquared
                  ((bones.map Bone.getWorldPosition).getD j ⟨0, 0, 0⟩)) := by
  have hbe : bones.isEmpty = false := by
    cases bones with
    | nil => exact absurd rfl hb
    | cons a t => rfl
  have hbwp : bones.map Bone.getWorldPosition ≠ [] := by
    cases bones with
    | nil => exact absurd rfl hb
    | cons a t => simp
  have hcalc : calculateNearestBoneWeights g bones =
      { g with
        skinIndex := some (ps.flatMap
          (fun v => skinEntryIndices v (bones.map Bone.getWorldPosition))),
        skinWeight := some (ps.flatMap
          (fun v => skinEntryWeights v (bones.map Bone.getWorldPosition))) } := by
    unfold calculateNearestBoneWeights
    rw [hpos, hbe]
    simp
  refine ⟨_, _, by rw [hcalc], by rw [hcalc],
    flatMap_length_four _ (fun v => skinEntryIndices_length v _) ps,
    flatMap_length_four _ (fun v => skinEntryWeights_length v _) ps, ?_⟩
  intro i hi
  obtain ⟨bi, minD, hscan, hblt, hmeq, hmin, hstrict⟩ :=
    nearestScan_spec (ps.getD i ⟨0, 0, 0⟩) (bones.map Bone.getWorldPosition) hbwp
  constructor
  · rw [flatMap_chunk _ (fun v => skinEntryWeights_length v _) ⟨0, 0, 0⟩ ps i hi]
    unfold skinEntryWeights
    rw [hscan]
  · refine ⟨bi, ?_, by simpa using hblt, ?_, ?_⟩
    · rw [flatMap_chunk _ (fun v => skinEntryIndices_length v _) ⟨0, 0, 0⟩ ps i hi]
      unfold skinEntryIndices
      rw [hscan]
    · intro j hj
      have := hmin j (by simpa using hj)
      rw [hmeq] at this
      exact this
    · intro j hj
      have := hstrict j hj
      rw [hmeq] at this
      exact this

/-- Witness for C1: two vertices on the x axis, bones from joints at x = 0
and x = 2; the theorem applies with its hypotheses discharged concretely. -/
theorem claim1_nearest_bone_weights_witness :
    (⟨some [⟨0, 0, 0⟩, ⟨3, 0, 0⟩], none, none, none⟩ : Geometry).position
        = some [⟨0, 0, 0⟩, ⟨3, 0, 0⟩] ∧
    createBones [⟨0, 0, 0⟩, ⟨2, 0, 0⟩] ≠ [] ∧
    (∃ I W,
      (calculateNearestBoneWeights ⟨some [⟨0, 0, 0⟩, ⟨3, 0, 0⟩], none, none, none⟩
          (createBones [⟨0, 0, 0⟩, ⟨2, 0, 0⟩])).skinIndex = some I ∧
      (calculateNearestBoneWeights ⟨some [⟨0, 0, 0⟩, ⟨3, 0, 0⟩], none, none, none⟩
          (createBones [⟨0, 0, 0⟩, ⟨2, 0, 0⟩])).skinWeight = some W ∧
      I.length = 4 * ([⟨0, 0, 0⟩, ⟨3, 0, 0⟩] : List Vec3).length ∧
      W.length = 4 * ([⟨0, 0, 0⟩, ⟨3, 0, 0⟩] : List Vec3).length ∧
      ∀ i, i < ([⟨0, 0, 0⟩, ⟨3, 0, 0⟩] : List Vec3).length →
        (W.drop (4 * i)).take 4 = [1, 0, 0, 0] ∧
        ∃ b, (I.drop (4 * i)).take 4 = [b, 0, 0, 0] ∧
          b < (createBones [⟨0, 0, 0⟩, ⟨2, 0, 0⟩]).length ∧
          (∀ j, j < (createBones [⟨0, 0, 0⟩, ⟨2, 0, 0⟩]).length →
            (([⟨0, 0, 0⟩, ⟨3, 0, 0⟩] : List Vec3).getD i ⟨0, 0, 0⟩).distanceToSquared
                (((createBones [⟨0, 0, 0⟩, ⟨2, 0, 0⟩]).map Bone.getWorldPosition).getD b
                  ⟨0, 0, 0⟩)
              ≤ (([⟨0, 0, 0⟩, ⟨3, 0, 0⟩] : List Vec3).getD i ⟨0, 0, 0⟩).distanceToSquared
                  (((createBones [⟨0, 0, 0⟩, ⟨2, 0, 0⟩]).map Bone.getWorldPosition).getD j
                    ⟨0, 0, 0⟩)) ∧
          (∀ j, j < b →
            (([⟨0, 0, 0⟩, ⟨3, 0, 0⟩] : List Vec3).getD i ⟨0, 0, 0⟩).distanceToSquared
                (((createBones [⟨0, 0, 0⟩, ⟨2, 0, 0⟩]).map Bone.getWorldPosition).getD b
                  ⟨0, 0, 0⟩)
              < (([⟨0, 0, 0⟩, ⟨3, 0, 0⟩] : List Vec3).getD i ⟨0, 0, 0⟩).distanceToSquared
                  (((createBones [⟨0, 0, 0⟩, ⟨2, 0, 0⟩]).map Bone.getWorldPosition).getD j
                    ⟨0, 0, 0⟩))) :=
  ⟨rfl, by decide,
    claim1_nearest_bone_weights ⟨some [⟨0, 0, 0⟩, ⟨3, 0, 0⟩], none, none, none⟩
      [⟨0, 0, 0⟩, ⟨3, 0, 0⟩] (createBones [⟨0, 0, 0⟩, ⟨2, 0, 0⟩]) rfl (by decide)⟩

theorem sampleLoop_inv (records : List (Option Vec3)) (rand : ℕ → ℕ) (target : ℕ)
    (hrec : 0 < records.length) :
    ∀ (fuel attempt : ℕ) (drawn : List ℕ) (acc : List Vec3),
      drawn.Nodup → (∀ x ∈ drawn, x < records.length) →
      acc = drawn.filterMap (fun i => records.getD i none) →
      drawn.length ≤ target →
      (sampleLoop records rand target fuel attempt drawn acc).1.Nodup ∧
      (∀ x ∈ (sampleLoop records rand target fuel attempt drawn acc).1,
        x < records.length) ∧
      (sampleLoop records rand target fuel attempt drawn acc).2
        = (sampleLoop records rand target fuel attempt drawn acc).1.filterMap
            (fun i => records.getD i none) ∧
      (sampleLoop records rand target fuel attempt drawn acc).1.length ≤ target := by
  intro fuel
  induction fuel with
  | zero =>
      intro attempt drawn acc hnd hin hacc hlen
      exact ⟨hnd, hin, hacc, hlen⟩
  | succ fuel ih =>
      intro attempt drawn acc hnd hin hacc hlen
      by_cases hcond : drawn.length < target
      · have hrilt : rand attempt % records.length < records.length :=
          Nat.mod_lt _ hrec
        by_cases hmem : rand attempt % records.length ∈ drawn
        · have hstep : sampleLoop records rand target (fuel + 1) attempt drawn acc
              = sampleLoop records rand target fuel (attempt + 1) drawn acc := by
            simp [sampleLoop, hcond, hmem]
          rw [hstep]
          exact ih _ _ _ hnd hin hacc hlen
        · have hnd' : (drawn ++ [rand attempt % records.length]).Nodup := by
            simp [List.nodup_append, hnd, hmem]
          have hin' : ∀ x ∈ drawn ++ [rand attempt % records.length],
              x < records.length := by
            intro x hx
            rcases List.mem_append.mp hx with hx | hx
            · exact hin x hx
            · rw [List.mem_singleton.mp hx]
              exact hrilt
          have hlen' : (drawn ++ [rand attempt % records.length]).length ≤ target := by
            simp only [List.length_append, List.length_cons, List.length_nil]
            omega
          cases hget : records.getD (rand attempt % records.length) none with
          | some p =>
              have hget' : (records[rand attempt % records.length]?).getD none = some p := by
                rw [← List.getD_eq_getElem?_getD]
                exact hget
              have hstep : sampleLoop records rand target (fuel + 1) attempt drawn acc
                  = sampleLoop records rand target fuel (attempt + 1)
                      (drawn ++ [rand attempt % records.length]) (acc ++ [p]) := by
                simp [sampleLoop, hcond, hmem, hget']
              rw [hstep]
              apply ih _ _ _ hnd' hin' _ hlen'
              rw [List.filterMap_append, hacc]
              simp [hget']
          | none =>
              have hget' : (records[rand attempt % records.length]?).getD none = none := by
                rw [← List.getD_eq_getElem?_getD]
                exact hget
              have hstep : sampleLoop records rand target (fuel + 1) attempt drawn acc
                  = sampleLoop records rand target fuel (attempt + 1)
                      (drawn ++ [rand attempt % records.length]) acc := by
                simp [sampleLoop, hcond, hmem, hget']
              rw [hstep]
              apply ih _ _ _ hnd' hin' _ hlen'
              rw [List.filterMap_append, hacc]
              simp [hget']
      · have hstep : sampleLoop records rand target (fuel + 1) attempt drawn acc
            = (drawn, acc) := by
          simp [sampleLoop, hcond]
        rw [hstep]
        exact ⟨hnd, hin, hacc, hlen⟩

/-- C3: under a ratio in `[0,1]` and `maxCount ≥ 1`, the sampler never draws
the same source record twice (the drawn input indices are distinct and each
output position is the position of one distinct drawn record), the number of
distinct records drawn is at most
`min(ceil(N * ratio), N, maxCount)`, and the returned list has between `0`
and `min(N, maxCount)` elements. -/
theorem claim3_sampler_bounds (records : List (Option Vec3)) (ratio : ℚ) (maxCount : ℤ)
    (rand : ℕ → ℕ) (h0 : 0 ≤ ratio) (h1 : ratio ≤ 1) (hm : 1 ≤ maxCount) :
    (samplePrecomputedPositions records ratio maxCount rand).length
        ≤ (samplePrecomputedPositionsFull records ratio maxCount rand).1.length ∧
    (samplePrecomputedPositionsFull records ratio maxCount rand).1.Nodup ∧
    samplePrecomputedPositions records ratio maxCount rand
      = (samplePrecomputedPositionsFull records ratio maxCount rand).1.filterMap
          (fun i => records.getD i none) ∧
    ((samplePrecomputedPositionsFull records ratio maxCount rand).1.length : ℤ)
      ≤ min (min ⌈(records.length : ℚ) * ratio⌉ (records.length : ℤ)) maxCount ∧
    ((samplePrecomputedPositions records ratio maxCount rand).length : ℤ)
      ≤ min (records.length : ℤ) maxCount := by
  have hceilnn : (0 : ℤ) ≤ ⌈(records.length : ℚ) * ratio⌉ :=
    Int.ceil_nonneg (mul_nonneg (by positivity) h0)
  have hmin3nn : (0 : ℤ)
      ≤ min (min ⌈(records.length : ℚ) * ratio⌉ (records.length : ℤ)) maxCount :=
    le_min (le_min hceilnn (by positivity)) (by omega)
  cases records with
  | nil =>
      refine ⟨by simp [samplePrecomputedPositions, samplePrecomputedPositionsFull],
        by simp [samplePrecomputedPositionsFull],
        by simp [samplePrecomputedPositions, samplePrecomputedPositionsFull],
        ?_, ?_⟩
      · simpa [samplePrecomputedPositionsFull] using hmin3nn
      · simp [samplePrecomputedPositions, samplePrecomputedPositionsFull]
        omega
  | cons r rs =>
      have hne : ¬(ratio < 0 ∨ 1 < ratio) := by
        push_neg
        exact ⟨h0, h1⟩
      have hmc : ¬maxCount ≤ 0 := by omega
      have hT : samplePrecomputedPositionsFull (r :: rs) ratio maxCount rand
          = (if (max 0 (min (min ⌈((r :: rs).length : ℚ) * ratio⌉
                ((r :: rs).length : ℤ)) maxCount)) = 0 then ([], [])
             else sampleLoop (r :: rs) rand
               (max 0 (min (min ⌈((r :: rs).length : ℚ) * ratio⌉
                 ((r :: rs).length : ℤ)) maxCount)).toNat
               ((max 0 (min (min ⌈((r :: rs).length : ℚ) * ratio⌉
                 ((r :: rs).length : ℤ)) maxCount)).toNat * 5) 0 [] []) := by
        simp only [samplePrecomputedPositionsFull, List.isEmpty_cons, Bool.false_eq_true,
          if_false, hne, hmc, if_neg]
      have hmax : max 0 (min (min ⌈((r :: rs).length : ℚ) * ratio⌉
          ((r :: rs).length : ℤ)) maxCount)
          = min (min ⌈((r :: rs).length : ℚ) * ratio⌉ ((r :: rs).length : ℤ)) maxCount :=
        max_eq_right hmin3nn
      rw [samplePrecomputedPositions, hT, hmax]
      set M := min (min ⌈((r :: rs).length : ℚ) * ratio⌉ ((r :: rs).length : ℤ)) maxCount
        with hM
      by_cases hz : M = 0
      · rw [if_pos hz]
        refine ⟨le_rfl, List.nodup_nil, by simp, ?_, ?_⟩
        · simp only [List.length_nil, Nat.cast_zero]
          exact hmin3nn
        · simp only [List.length_nil, Nat.cast_zero]
          exact le_min (by positivity) (by omega)
      · rw [if_neg hz]
        obtain ⟨c1, c2, c3, c4⟩ := sampleLoop_inv (r :: rs) rand M.toNat (by simp)
          (M.toNat * 5) 0 [] [] List.nodup_nil (by simp) (by simp) (by simp)
        refine ⟨?_, c1, c3, ?_, ?_⟩
        · rw [c3]
          exact List.length_filterMap_le _ _
        · have hc : ((sampleLoop (r :: rs) rand M.toNat (M.toNat * 5) 0 [] []).1.length : ℤ)
              ≤ (M.toNat : ℤ) := by exact_mod_cast c4
          rwa [Int.toNat_of_nonneg hmin3nn] at hc
        · have hout : ((sampleLoop (r :: rs) rand M.toNat (M.toNat * 5) 0 [] []).2.length : ℤ)
              ≤ ((sampleLoop (r :: rs) rand M.toNat (M.toNat * 5) 0 [] []).1.length : ℤ) := by
            have := c3 ▸ List.length_filterMap_le (fun i => (r :: rs).getD i none)
              (sampleLoop (r :: rs) rand M.toNat (M.toNat * 5) 0 [] []).1
            exact_mod_cast this
          have hdr : ((sampleLoop (r :: rs) rand M.toNat (M.toNat * 5) 0 [] []).1.length : ℤ)
              ≤ M := by
            have hc : ((sampleLoop (r :: rs) rand M.toNat (M.toNat * 5) 0 [] []).1.length : ℤ)
                ≤ (M.toNat : ℤ) := by exact_mod_cast c4
            rwa [Int.toNat_of_nonneg hmin3nn] at hc
          have hsplit : M ≤ min ((r :: rs).length : ℤ) maxCount := by
            rw [hM]
            exact le_min (le_trans (min_le_left _ _) (min_le_right _ _)) (min_le_right _ _)
          exact le_trans hout (le_trans hdr hsplit)

/-- Witness for C3: one record, ratio `1/2`, cap `100`. -/
theorem claim3_sampler_bounds_witness :
    (0 : ℚ) ≤ 1 / 2 ∧ (1 / 2 : ℚ) ≤ 1 ∧ (1 : ℤ) ≤ 100 ∧
    ((samplePrecomputedPositions [some ⟨0, 0, 0⟩] (1 / 2) 100 (fun _ => 0)).length
        ≤ (samplePrecomputedPositionsFull [some ⟨0, 0, 0⟩] (1 / 2) 100 (fun _ => 0)).1.length ∧
      (samplePrecomputedPositionsFull [some ⟨0, 0, 0⟩] (1 / 2) 100 (fun _ => 0)).1.Nodup ∧
      samplePrecomputedPositions [some ⟨0, 0, 0⟩] (1 / 2) 100 (fun _ => 0)
        = (samplePrecomputedPositionsFull [some ⟨0, 0, 0⟩] (1 / 2) 100 (fun _ => 0)).1.filterMap
            (fun i => ([some ⟨0, 0, 0⟩] : List (Option Vec3)).getD i none) ∧
      ((samplePrecomputedPositionsFull [some ⟨0, 0, 0⟩] (1 / 2) 100 (fun _ => 0)).1.length : ℤ)
        ≤ min (min ⌈(([some ⟨0, 0, 0⟩] : List (Option Vec3)).length : ℚ) * (1 / 2)⌉
            (([some ⟨0, 0, 0⟩] : List (Option Vec3)).length : ℤ)) 100 ∧
      ((samplePrecomputedPositions [some ⟨0, 0, 0⟩] (1 / 2) 100 (fun _ => 0)).length : ℤ)
        ≤ min (([some ⟨0, 0, 0⟩] : List (Option Vec3)).length : ℤ) 100) :=
  ⟨by norm_num, by norm_num, by norm_num,
    claim3_sampler_bounds [some ⟨0, 0, 0⟩] (1 / 2) 100 (fun _ => 0)
      (by norm_num) (by norm_num) (by norm_num)⟩

theorem sampleVertexLoop_stuck (rand : ℕ → ℕ) :
    ∀ (fuel attempt : ℕ) (sampled : List ℤ), sampled = [] ∨ sampled = [0] →
      sampleVertexLoop 1 [0, 5] 2 rand fuel attempt sampled = none := by
  intro fuel
  induction fuel with
  | zero => intro attempt sampled hs; rfl
  | succ fuel ih =>
      intro attempt sampled hs
      have hri : rand attempt % 2 = 0 ∨ rand attempt % 2 = 1 :=
        Nat.mod_two_eq_zero_or_one (rand attempt)
      rcases hs with rfl | rfl <;> rcases hri with hri | hri <;>
        simp [sampleVertexLoop, hri] <;>
        first
          | exact ih (attempt + 1) [0] (Or.inr rfl)
          | exact ih (attempt + 1) [] (Or.inl rfl)

/-- C10 (evidence of the code bug): on selected indices `{0, 5}` over a
1-vertex geometry with ratio `1`, the computed `sampleSize` is `2`, yet the
`while` loop of `sampleVertexPositions` never terminates — for every random
stream and every number of iterations it is still running: the out-of-range
index 5 is always skipped, so the sampled set is stuck below `sampleSize` and
the `size >= totalSelected` break guard can never fire. -/
theorem claim10_sampleVertexLoop_nonterminating :
    (sampleVertexSampleSize 2 1).toNat = 2 ∧
    ∀ (rand : ℕ → ℕ) (fuel attempt : ℕ),
      sampleVertexLoop 1 [0, 5] (sampleVertexSampleSize 2 1).toNat rand fuel attempt []
        = none := by
  have h2 : sampleVertexSampleSize 2 1 = 2 := by
    unfold sampleVertexSampleSize
    norm_num
  have h2' : (sampleVertexSampleSize 2 1).toNat = 2 := by
    rw [h2]
    rfl
  exact ⟨h2', fun rand fuel attempt => by
    rw [h2']
    exact sampleVertexLoop_stuck rand fuel attempt [] (Or.inl rfl)⟩

theorem createChildBones_length (p : Vec3) :
    ∀ (rest : List Vec3) (i : ℕ), (createChildBones p rest i).length = rest.length := by
  intro rest
  induction rest with
  | nil => intro i; rfl
  | cons a t ih => intro i; simp [createChildBones, ih]

theorem createChildBones_getD (p : Vec3) (d : Bone) :
    ∀ (rest : List Vec3) (i k : ℕ), k < rest.length →
      ((createChildBones p rest i).getD k d).parentPosition = some p ∧
      ((createChildBones p rest i).getD k d).position = (rest.getD k ⟨0, 0, 0⟩).sub p := by
  intro rest
  induction rest with
  | nil => intro i k hk; simp at hk
  | cons a t ih =>
      intro i k hk
      cases k with
      | zero => exact ⟨rfl, rfl⟩
      | succ k =>
          simp only [createChildBones, List.getD_cons_succ]
          exact ih (i + 1) k (by simpa using hk)

/-- C2: bone construction produces one bone per joint; bone 0 is the root
placed at the first joint, has no parent, and every later bone is a direct
child of the root whose stored local position is its joint position minus the
first joint's position, componentwise. -/
theorem claim2_createBones (joints : List Vec3) (d : Bone) (h : joints ≠ []) :
    (createBones joints).length = joints.length ∧
    ((createBones joints).getD 0 d).position = joints.getD 0 ⟨0, 0, 0⟩ ∧
    ((createBones joints).getD 0 d).parentPosition = none ∧
    ∀ i, 1 ≤ i → i < joints.length →
      ((createBones joints).getD i d).parentPosition = some (joints.getD 0 ⟨0, 0, 0⟩) ∧
      ((createBones joints).getD i d).position
        = (joints.getD i ⟨0, 0, 0⟩).sub (joints.getD 0 ⟨0, 0, 0⟩) := by
  cases joints with
  | nil => exact absurd rfl h
  | cons j0 rest =>
      refine ⟨by simp [createBones, createChildBones_length], rfl, rfl, ?_⟩
      intro i h1 hi
      cases i with
      | zero => omega
      | succ k =>
          simp only [createBones, List.getD_cons_succ]
          exact createChildBones_getD j0 d rest 1 k (by simpa using hi)

/-- Witness for C2 at the spec's concrete skeleton
`[(0,0,0), (1,2,3), (-1,0,1)]`. -/
theorem claim2_createBones_witness :
    ([⟨0, 0, 0⟩, ⟨1, 2, 3⟩, ⟨-1, 0, 1⟩] : List Vec3) ≠ [] ∧
    ((createBones [⟨0, 0, 0⟩, ⟨1, 2, 3⟩, ⟨-1, 0, 1⟩]).length = 3 ∧
      ((createBones [⟨0, 0, 0⟩, ⟨1, 2, 3⟩, ⟨-1, 0, 1⟩]).getD 0
          ⟨"", ⟨9, 9, 9⟩, none⟩).position = ⟨0, 0, 0⟩ ∧
      ((createBones [⟨0, 0, 0⟩, ⟨1, 2, 3⟩, ⟨-1, 0, 1⟩]).getD 0
          ⟨"", ⟨9, 9, 9⟩, none⟩).parentPosition = none ∧
      ∀ i, 1 ≤ i → i < ([⟨0, 0, 0⟩, ⟨1, 2, 3⟩, ⟨-1, 0, 1⟩] : List Vec3).length →
        ((createBones [⟨0, 0, 0⟩, ⟨1, 2, 3⟩, ⟨-1, 0, 1⟩]).getD i
            ⟨"", ⟨9, 9, 9⟩, none⟩).parentPosition = some ⟨0, 0, 0⟩ ∧
        ((createBones [⟨0, 0, 0⟩, ⟨1, 2, 3⟩, ⟨-1, 0, 1⟩]).getD i
            ⟨"", ⟨9, 9, 9⟩, none⟩).position
          = (([⟨0, 0, 0⟩, ⟨1, 2, 3⟩, ⟨-1, 0, 1⟩] : List Vec3).getD i ⟨0, 0, 0⟩).sub ⟨0, 0, 0⟩) := by
  refine ⟨by decide, ?_⟩
  have h := claim2_createBones [⟨0, 0, 0⟩, ⟨1, 2, 3⟩, ⟨-1, 0, 1⟩] ⟨"", ⟨9, 9, 9⟩, none⟩ (by decide)
  exact ⟨h.1, h.2.1, h.2.2.1, h.2.2.2⟩

/-- C7: invoked with a missing or empty joint list, the skeleton synthesizer
produces no skeleton and returns the supplied geometry unchanged — no
skin-index or skin-weight attribute is added and no attribute is modified. -/
theorem claim7_noBones_noMutation (g : Geometry) (j : Option (List Vec3))
    (h : j = none ∨ j = some []) : createAndBindSkeleton g j = (none, g) := by
  rcases h with h | h <;> subst h <;> rfl

/-- Witness for C7: a geometry with one vertex and a missing joint list. -/
theorem claim7_noBones_noMutation_witness :
    createAndBindSkeleton ⟨some [⟨0, 0, 0⟩], none, none, none⟩ none
      = (none, ⟨some [⟨0, 0, 0⟩], none, none, none⟩) :=
  claim7_noBones_noMutation ⟨some [⟨0, 0, 0⟩], none, none, none⟩ none (Or.inl rfl)

theorem bool_bne_comm (x y : Bool) : (x != y) = (y != x) := by
  cases x <;> cases y <;> rfl

theorem edgeIntersect_eq_y_false (p a b : Pt2) (h : a.y = b.y) :
    edgeIntersect p a b = false := by
  simp only [edgeIntersect, h, bne_self_eq_false, Bool.false_and]

theorem edgeIntersect_comm (p a b : Pt2) : edgeIntersect p a b = edgeIntersect p b a := by
  by_cases hy : a.y = b.y
  · rw [edgeIntersect_eq_y_false p a b hy, edgeIntersect_eq_y_false p b a hy.symm]
  · have h1 : b.y - a.y ≠ 0 := sub_ne_zero.mpr (Ne.symm hy)
    have h2 : a.y - b.y ≠ 0 := sub_ne_zero.mpr hy
    have hT : (b.x - a.x) * (p.y - a.y) / (b.y - a.y) + a.x
        = (a.x - b.x) * (p.y - b.y) / (a.y - b.y) + b.x := by
      field_simp
      ring
    simp only [edgeIntersect]
    rw [hT, bool_bne_comm]

theorem isPointInLasso_short (p : Pt2) (points : List Pt2) (h : points.length < 3) :
    isPointInLasso p points = false := by
  match points with
  | [] => rfl
  | [a] =>
      have hr : List.range 1 = [0] := rfl
      have h1 : edgeIntersect p a a = false := edgeIntersect_eq_y_false p a a rfl
      simp [isPointInLasso, hr, h1]
  | [a, b] =>
      have hc : edgeIntersect p b a = edgeIntersect p a b := edgeIntersect_comm p b a
      have hu : isPointInLasso p [a, b]
          = (if edgeIntersect p b a = true
             then !(if edgeIntersect p a b = true then !false else false)
             else (if edgeIntersect p a b = true then !false else false)) := rfl
      rw [hu, hc]
      cases edgeIntersect p a b <;> simp
  | a :: b :: c :: t => simp at h; omega

/-- C6: the point-in-polygon test is safe: a polygon edge whose endpoints have
equal y coordinates never contributes an intersection to the parity count (so
the division by `yj - yi` is never reached), and every query against a polygon
of fewer than 3 points answers "not inside". -/
theorem claim6_rayCast_safe :
    (∀ (p a b : Pt2), a.y = b.y → edgeIntersect p a b = false) ∧
    (∀ (p : Pt2) (poly : List Pt2), poly.length < 3 → isPointInLasso p poly = false) :=
  ⟨edgeIntersect_eq_y_false, isPointInLasso_short⟩

/-- Witness for C6: a horizontal edge at height 5 never intersects, and a
2-point "polygon" contains nothing. -/
theorem claim6_rayCast_safe_witness :
    ((⟨1, 5⟩ : Pt2).y = (⟨3, 5⟩ : Pt2).y ∧ edgeIntersect ⟨0, 0⟩ ⟨1, 5⟩ ⟨3, 5⟩ = false) ∧
    (([⟨0, 0⟩, ⟨10, 10⟩] : List Pt2).length < 3 ∧
      isPointInLasso ⟨5, 5⟩ [⟨0, 0⟩, ⟨10, 10⟩] = false) :=
  ⟨⟨rfl, claim6_rayCast_safe.1 ⟨0, 0⟩ ⟨1, 5⟩ ⟨3, 5⟩ rfl⟩,
   ⟨by decide, claim6_rayCast_safe.2 ⟨5, 5⟩ [⟨0, 0⟩, ⟨10, 10⟩] (by decide)⟩⟩

theorem foldl_selectVertexStep_of_false (vs : List Vec3) (w h : ℚ) (path : List Pt2)
    (hf : ∀ q, isPointInLasso q path = false) :
    ∀ (l : List ℕ) (sel : List ℕ), l.foldl (selectVertexStep vs w h path) sel = sel := by
  intro l
  induction l with
  | nil => intro sel; rfl
  | cons i t ih =>
      intro sel
      have hstep : selectVertexStep vs w h path sel i = sel := by
        simp [selectVertexStep, hf]
      simp only [List.foldl_cons, hstep, ih]

theorem lassoClassification_short (env : LassoEnv) (path : List Pt2)
    (h : path.length < 3) : lassoClassification env path = [] := by
  cases hndc : env.ndc with
  | none => simp [lassoClassification, hndc]
  | some vs =>
      simp only [lassoClassification, hndc, selectVerticesLoop]
      exact foldl_selectVertexStep_of_false vs env.clientWidth env.clientHeight path
        (fun q => isPointInLasso_short q path h) (List.range vs.length) []

theorem onMouseDown_zero (q0 : Pt2) (s : LassoState) :
    (onMouseDown 0 q0 s).isSelecting = true ∧ (onMouseDown 0 q0 s).selectedVertices = [] ∧
    (onMouseDown 0 q0 s).lassoPoints = [q0] := by
  by_cases hsel : 0 < s.selectedVertices.length
  · simp [onMouseDown, addLassoPoint, hsel]
  · have hnil : s.selectedVertices = [] :=
      List.length_eq_zero.mp (Nat.eq_zero_of_not_pos hsel)
    simp [onMouseDown, addLassoPoint, hsel, hnil]

theorem movesFold (qs : List Pt2) :
    ∀ (st : LassoState), st.isSelecting = true →
      (qs.foldl (fun t q => onMouseMove q t) st).isSelecting = true ∧
      (qs.foldl (fun t q => onMouseMove q t) st).selectedVertices = st.selectedVertices ∧
      (qs.foldl (fun t q => onMouseMove q t) st).lassoPoints = st.lassoPoints ++ qs := by
  induction qs with
  | nil => intro st h; exact ⟨h, rfl, by simp⟩
  | cons q t ih =>
      intro st h
      have hm : onMouseMove q st = addLassoPoint q st := by simp [onMouseMove, h]
      simp only [List.foldl_cons, hm]
      obtain ⟨h1, h2, h3⟩ := ih (addLassoPoint q st) (by simpa [addLassoPoint] using h)
      refine ⟨h1, by simpa [addLassoPoint] using h2, ?_⟩
      rw [h3]
      simp [addLassoPoint]

theorem onMouseUp_from_active (env : LassoEnv) (qe : Pt2) (st : LassoState)
    (h : st.isSelecting = true) (hsel : st.selectedVertices = []) :
    (onMouseUp env qe st).selectedVertices
      = lassoClassification env (st.lassoPoints ++ [qe]) := by
  by_cases hlen : 2 < st.lassoPoints.length + 1
  · cases hndc : env.ndc with
    | none =>
        simp [onMouseUp, addLassoPoint, selectVertices, lassoClassification, h, hsel, hlen, hndc]
    | some vs =>
        simp [onMouseUp, addLassoPoint, selectVertices, lassoClassification, h, hsel, hlen, hndc]
  · have hshort : (st.lassoPoints ++ [qe]).length < 3 := by
      simp only [List.length_append, List.length_cons, List.length_nil]
      omega
    rw [lassoClassification_short env _ hshort]
    simp [onMouseUp, addLassoPoint, h, hsel, hlen]

/-- C5: after every completed lasso gesture, the selection equals exactly the
classification of that gesture's own path (vertices projected inside the
just-accumulated polygon and the visible depth range), independently of any
prior selection; in particular, performing gesture A and then gesture B
leaves classification(B) alone, never the union with classification(A). -/
theorem claim5_selection_replacement (env : LassoEnv) (q0 qe : Pt2) (qs : List Pt2)
    (s : LassoState) :
    (runGesture env q0 qs qe s).selectedVertices
      = lassoClassification env (q0 :: (qs ++ [qe])) ∧
    ∀ (a0 ae : Pt2) (as' : List Pt2),
      (runGesture env q0 qs qe (runGesture env a0 as' ae s)).selectedVertices
        = lassoClassification env (q0 :: (qs ++ [qe])) := by
  have key : ∀ (s' : LassoState),
      (runGesture env q0 qs qe s').selectedVertices
        = lassoClassification env (q0 :: (qs ++ [qe])) := by
    intro s'
    obtain ⟨hd1, hd2, hd3⟩ := onMouseDown_zero q0 s'
    obtain ⟨hm1, hm2, hm3⟩ := movesFold qs (onMouseDown 0 q0 s') hd1
    have hsel : (qs.foldl (fun t q => onMouseMove q t) (onMouseDown 0 q0 s')).selectedVertices
        = [] := hm2.trans hd2
    have hpath : (qs.foldl (fun t q => onMouseMove q t) (onMouseDown 0 q0 s')).lassoPoints
        = [q0] ++ qs := by rw [hm3, hd3]
    have := onMouseUp_from_active env qe _ hm1 hsel
    rw [runGesture, this, hpath]
    simp
  exact ⟨key s, fun a0 ae as' => key _⟩

/-- C9: disposing the lasso tool removes all three event listeners the engine
ever attaches (mousedown from the constructor, mousemove/mouseup from an
interrupted gesture), and the controller cleanup that performs the disposal
then emits an empty-selection notification to the selection observer — in
particular whenever a non-empty selection existed at that moment. -/
theorem claim9_dispose_listeners_and_notify (s : LassoState)
    (h : s.selectedVertices ≠ []) :
    (lassoControllerCleanup s).listenerDown = false ∧
    (lassoControllerCleanup s).listenerMove = false ∧
    (lassoControllerCleanup s).listenerUp = false ∧
    (lassoControllerCleanup s).notifications = s.notifications ++ [[]] :=
  ⟨rfl, rfl, rfl, rfl⟩

/-- Witness for C9: disposal with vertex 3 selected. -/
theorem claim9_dispose_listeners_and_notify_witness :
    (⟨true, false, false, false, [], [3], []⟩ : LassoState).selectedVertices ≠ [] ∧
    ((lassoControllerCleanup ⟨true, false, false, false, [], [3], []⟩).listenerDown = false ∧
      (lassoControllerCleanup ⟨true, false, false, false, [], [3], []⟩).listenerMove = false ∧
      (lassoControllerCleanup ⟨true, false, false, false, [], [3], []⟩).listenerUp = false ∧
      (lassoControllerCleanup ⟨true, false, false, false, [], [3], []⟩).notifications
        = ([] : List (List ℕ)) ++ [[]]) :=
  ⟨by decide, claim9_dispose_listeners_and_notify ⟨true, false, false, false, [], [3], []⟩
    (by decide)⟩

theorem samplePrecomputedPositionsFull_singleton (v : Vec3) (rand : ℕ → ℕ) :
    samplePrecomputedPositionsFull [some v] (1 / 2) 100 rand = ([0], [v]) := by
  have hceil : (⌈((1 : ℕ) : ℚ) * (1 / 2)⌉ : ℤ) = 1 := by
    have h : ((1 : ℕ) : ℚ) * (1 / 2) = 1 / 2 := by norm_num
    rw [h, Int.ceil_eq_iff] <;> norm_num
  have hclamp : ¬((1 : ℚ) / 2 < 0 ∨ 1 < (1 : ℚ) / 2) := by norm_num
  simp only [samplePrecomputedPositionsFull, List.isEmpty_cons, List.length_cons,
    List.length_nil, Nat.cast_one] at hceil ⊢
  norm_num [hceil, sampleLoop, Nat.mod_one]

theorem generate_failure_aux (s : GenState) (recs : List (Option Vec3)) (g : Geometry)
    (status : ℕ) (ef : Option String) (rand : ℕ → ℕ)
    (h1 : s.preparedGrouped = some recs) (h2 : recs ≠ [])
    (h3 : s.preparedGeometry = some g) (h4 : ¬ jsTrim s.prompt = "")
    (h5 : samplePrecomputedPositions recs (1 / 2) 100 rand ≠ []) :
    (generate s (.failure status ef) rand).error
        = some (ef.getD ("API request failed (" ++ toString status ++ ")")) ∧
    (generate s (.failure status ef) rand).generatedSkeleton = none ∧
    (generate s (.failure status ef) rand).skinnedGeometry = none ∧
    (generate s (.failure status ef) rand).isLoading = false := by
  have e2 : recs.isEmpty = false := by
    cases recs with
    | nil => exact absurd rfl h2
    | cons a t => rfl
  have e5 : ¬ samplePrecomputedPositions recs (2⁻¹ : ℚ) 100 rand = [] := by
    rw [show ((2⁻¹ : ℚ)) = 1 / 2 from (one_div (2 : ℚ)).symm]
    exact h5
  simp [generate, h1, h3, e2, e5, h4]

/-- Counterexample to C4 as stated: a state holding a previously generated
skeleton loses it when `generate()` runs into an HTTP 500 — the prior
Done-state data does not remain queryable afterwards. -/
theorem claim4_counterexample :
    (⟨false, true, "walk", false, none, some [⟨"Bone_0", ⟨0, 0, 0⟩, none⟩],
        some ⟨some [⟨0, 0, 0⟩], none, none, none⟩, some [some ⟨0, 0, 0⟩],
        some ⟨some [⟨0, 0, 0⟩], none, none, none⟩⟩ : GenState).generatedSkeleton ≠ none ∧
    (generate
        ⟨false, true, "walk", false, none, some [⟨"Bone_0", ⟨0, 0, 0⟩, none⟩],
          some ⟨some [⟨0, 0, 0⟩], none, none, none⟩, some [some ⟨0, 0, 0⟩],
          some ⟨some [⟨0, 0, 0⟩], none, none, none⟩⟩
        (.failure 500 none) (fun _ => 0)).error = some "API request failed (500)" ∧
    (generate
        ⟨false, true, "walk", false, none, some [⟨"Bone_0", ⟨0, 0, 0⟩, none⟩],
          some ⟨some [⟨0, 0, 0⟩], none, none, none⟩, some [some ⟨0, 0, 0⟩],
          some ⟨some [⟨0, 0, 0⟩], none, none, none⟩⟩
        (.failure 500 none) (fun _ => 0)).generatedSkeleton = none ∧
    (generate
        ⟨false, true, "walk", false, none, some [⟨"Bone_0", ⟨0, 0, 0⟩, none⟩],
          some ⟨some [⟨0, 0, 0⟩], none, none, none⟩, some [some ⟨0, 0, 0⟩],
          some ⟨some [⟨0, 0, 0⟩], none, none, none⟩⟩
        (.failure 500 none) (fun _ => 0)).skinnedGeometry = none := by
  have hs : samplePrecomputedPositions [some ⟨0, 0, 0⟩] (1 / 2) 100 (fun _ => 0)
      = [⟨0, 0, 0⟩] := by
    rw [samplePrecomputedPositions, samplePrecomputedPositionsFull_singleton]
  have h := generate_failure_aux
    ⟨false, true, "walk", false, none, some [⟨"Bone_0", ⟨0, 0, 0⟩, none⟩],
      some ⟨some [⟨0, 0, 0⟩], none, none, none⟩, some [some ⟨0, 0, 0⟩],
      some ⟨some [⟨0, 0, 0⟩], none, none, none⟩⟩
    [some ⟨0, 0, 0⟩] ⟨some [⟨0, 0, 0⟩], none, none, none⟩ 500 none (fun _ => 0)
    rfl (by simp) rfl (by decide) (by rw [hs]; simp)
  have hmsg : ((none : Option String).getD ("API request failed (" ++ toString 500 ++ ")"))
      = "API request failed (500)" := by decide
  exact ⟨by simp, by rw [h.1, hmsg], h.2.1, h.2.2.1⟩

/-- C4 (amended): when the suggestion request completes with a non-success
HTTP status, `generate()` ends in the Errored state with a message derived
from the failure status (the parsed `error` field when available, else
`API request failed (status)`), loading cleared — but any prior Done-state
skeleton and skinned geometry were cleared at the start of `generate()` and
are no longer queryable. -/
theorem claim4_generate_failure (s : GenState) (recs : List (Option Vec3)) (g : Geometry)
    (status : ℕ) (ef : Option String) (rand : ℕ → ℕ)
    (h1 : s.preparedGrouped = some recs) (h2 : recs ≠ [])
    (h3 : s.preparedGeometry = some g) (h4 : ¬ jsTrim s.prompt = "")
    (h5 : samplePrecomputedPositions recs (1 / 2) 100 rand ≠ []) :
    (generate s (.failure status ef) rand).error
        = some (ef.getD ("API request failed (" ++ toString status ++ ")")) ∧
    (generate s (.failure status ef) rand).generatedSkeleton = none ∧
    (generate s (.failure status ef) rand).skinnedGeometry = none ∧
    (generate s (.failure status ef) rand).isLoading = false :=
  generate_failure_aux s recs g status ef rand h1 h2 h3 h4 h5

/-- Witness for C4 (amended) at the counterexample's concrete state. -/
theorem claim4_generate_failure_witness :
    (⟨false, true, "walk", false, none, some [⟨"Bone_0", ⟨0, 0, 0⟩, none⟩],
        some ⟨some [⟨0, 0, 0⟩], none, none, none⟩, some [some ⟨0, 0, 0⟩],
        some ⟨some [⟨0, 0, 0⟩], none, none, none⟩⟩ : GenState).preparedGrouped
      = some [some ⟨0, 0, 0⟩] ∧
    ((generate
        ⟨false, true, "walk", false, none, some [⟨"Bone_0", ⟨0, 0, 0⟩, none⟩],
          some ⟨some [⟨0, 0, 0⟩], none, none, none⟩, some [some ⟨0, 0, 0⟩],
          some ⟨some [⟨0, 0, 0⟩], none, none, none⟩⟩
        (.failure 500 none) (fun _ => 0)).error
      = some ((none : Option String).getD ("API request failed (" ++ toString 500 ++ ")")) ∧
     (generate
        ⟨false, true, "walk", false, none, some [⟨"Bone_0", ⟨0, 0, 0⟩, none⟩],
          some ⟨some [⟨0, 0, 0⟩], none, none, none⟩, some [some ⟨0, 0, 0⟩],
          some ⟨some [⟨0, 0, 0⟩], none, none, none⟩⟩
        (.failure 500 none) (fun _ => 0)).generatedSkeleton = none ∧
     (generate
        ⟨false, true, "walk", false, none, some [⟨"Bone_0", ⟨0, 0, 0⟩, none⟩],
          some ⟨some [⟨0, 0, 0⟩], none, none, none⟩, some [some ⟨0, 0, 0⟩],
          some ⟨some [⟨0, 0, 0⟩], none, none, none⟩⟩
        (.failure 500 none) (fun _ => 0)).skinnedGeometry = none ∧
     (generate
        ⟨false, true, "walk", false, none, some [⟨"Bone_0", ⟨0, 0, 0⟩, none⟩],
          some ⟨some [⟨0, 0, 0⟩], none, none, none⟩, some [some ⟨0, 0, 0⟩],
          some ⟨some [⟨0, 0, 0⟩], none, none, none⟩⟩
        (.failure 500 none) (fun _ => 0)).isLoading = false) := by
  have hs : samplePrecomputedPositions [some ⟨0, 0, 0⟩] (1 / 2) 100 (fun _ => 0)
      = [⟨0, 0, 0⟩] := by
    rw [samplePrecomputedPositions, samplePrecomputedPositionsFull_singleton]
  exact ⟨rfl, claim4_generate_failure
    ⟨false, true, "walk", false, none, some [⟨"Bone_0", ⟨0, 0, 0⟩, none⟩],
      some ⟨some [⟨0, 0, 0⟩], none, none, none⟩, some [some ⟨0, 0, 0⟩],
      some ⟨some [⟨0, 0, 0⟩], none, none, none⟩⟩
    [some ⟨0, 0, 0⟩] ⟨some [⟨0, 0, 0⟩], none, none, none⟩ 500 none (fun _ => 0)
    rfl (by simp) rfl (by decide) (by rw [hs]; simp)⟩

/-- C8: `cancel()` clears only the prompt visibility flag, the error and the
prompt text; all other orchestrator state — in particular an already-produced
skeleton and its skinned geometry — is unchanged. -/
theorem claim8_cancel_preserves_results (s : GenState) :
    (cancel s).showPrompt = false ∧ (cancel s).error = none ∧ (cancel s).prompt = "" ∧
    (cancel s).isPreparing = s.isPreparing ∧ (cancel s).isLoading = s.isLoading ∧
    (cancel s).generatedSkeleton = s.generatedSkeleton ∧
    (cancel s).skinnedGeometry = s.skinnedGeometry ∧
    (cancel s).preparedGrouped = s.preparedGrouped ∧
    (cancel s).preparedGeometry = s.preparedGeometry :=
  ⟨rfl, rfl, rfl, rfl, rfl, rfl, rfl, rfl, rfl⟩

end AnimPoc
